import Mathlib

/-!
Shallow embedding of the Xero bulk-void tool (src/app.py): the validation
error classifier embedded in `void_invoice` (lines 283-371), the two-phase
lookup-then-mutate transaction `void_invoice` (lines 187-383), and the
batch scheduler `process_void_job` (lines 150-184) together with `main`'s
throttle decision (lines 410-419).  Remote HTTP traffic is modelled as an
explicit environment; decimal numerals extracted from error messages are
modelled as exact rationals.
-/

set_option maxRecDepth 100000

namespace XeroVoid

/-! ### Validation message parsing (app.py lines 296-306) -/

/-- Characters of the lowercase marker searched for inside validation
messages: the code tests `'line total' in error['Message'].lower()`. -/
def lineTotalChars : List Char := "line total".toList

/-- Lowercase a message, modelling Python `str.lower()` on the ASCII
messages the service emits. -/
def lowerChars (m : List Char) : List Char := m.map Char.toLower

/-- Does `s` begin with `pre`?  Helper for the substring test. -/
def beginsWith : List Char → List Char → Bool
  | _, [] => true
  | [], _ :: _ => false
  | c :: s, d :: t => c == d && beginsWith s t

/-- Python's substring containment test `sub in s`. -/
def hasSub (sub : List Char) : List Char → Bool
  | [] => beginsWith [] sub
  | c :: t => beginsWith (c :: t) sub || hasSub sub t

/-- `'line total' in message.lower()` (app.py lines 296, 319, 346). -/
def mentionsLineTotal (m : List Char) : Bool :=
  hasSub lineTotalChars (lowerChars m)

/-- Fuel-indexed scanner behind `findNumbers`.  Every recursive call
strictly shortens the character list, so fuel equal to the list's length
always suffices; the fuel only makes the recursion structural. -/
def findNumbersGo : Nat → List Char → List (List Char × List Char)
  | 0, _ => []
  | _, [] => []
  | fuel + 1, c :: cs =>
    if c.isDigit then
      match cs.dropWhile Char.isDigit with
      | '.' :: r2 =>
        match r2.takeWhile Char.isDigit with
        | [] => findNumbersGo fuel cs
        | f :: fs =>
            (c :: cs.takeWhile Char.isDigit, f :: fs) ::
              findNumbersGo fuel (r2.dropWhile Char.isDigit)
      | _ => findNumbersGo fuel cs
    else findNumbersGo fuel cs

/-- `re.findall(r'\d+\.\d+', message)` (app.py lines 299, 322, 349):
scan left to right; at a digit, the maximal digit run must be followed by
a dot and at least one digit, both runs greedy; on a match continue after
it, otherwise advance one character.  Each number is returned as its
integer-part digits paired with its fractional-part digits. -/
def findNumbers (m : List Char) : List (List Char × List Char) :=
  findNumbersGo m.length m

/-- Numeric value of one digit character. -/
def digitVal (c : Char) : Nat := c.toNat - '0'.toNat

/-- Value of a digit run read in base 10. -/
def digitsToNat (ds : List Char) : Nat :=
  ds.foldl (fun a c => 10 * a + digitVal c) 0

/-- Exact rational value of an extracted decimal literal `\d+\.\d+`. -/
def numVal (n : List Char × List Char) : ℚ :=
  (digitsToNat n.1 : ℚ) + (digitsToNat n.2 : ℚ) / (10 : ℚ) ^ n.2.length

/-! ### IEEE binary64 arithmetic model

CPython computes `float(numbers[i])`, the subtraction and the literals
`0.02` / `0.05` in IEEE binary64.  Every finite double is a rational
`±m * 2^e` with `m < 2^53`, so doubles are modelled as the exact
rationals they denote, carried as explicit numerator/denominator pairs
(`Frac`, no normalisation), and `roundDouble` is correct rounding (to
nearest, ties to even) for values in the normal range of binary64 —
which covers every decimal literal and difference the classifier
meets. -/

/-- An unnormalised fraction `num / den`.  Every fraction this model
builds has a positive denominator (a power of 2 or of 10, or a product
of such). -/
structure Frac where
  num : ℤ
  den : ℕ
deriving DecidableEq

/-- Numeric reading of a fraction. -/
def Frac.toRat (a : Frac) : ℚ := (a.num : ℚ) / (a.den : ℚ)

/-- Comparison by cross-multiplication; agrees with `toRat`-comparison
when both denominators are positive. -/
def Frac.le (a b : Frac) : Bool :=
  decide (a.num * (b.den : ℤ) ≤ b.num * (a.den : ℤ))

/-- Exact subtraction. -/
def Frac.sub (a b : Frac) : Frac :=
  ⟨a.num * b.den - b.num * a.den, a.den * b.den⟩

/-- Absolute value. -/
def Frac.abs (a : Frac) : Frac := ⟨(a.num.natAbs : ℤ), a.den⟩

/-- Fuel-indexed core of `natLog2`; the fuel only makes the recursion
structural, `n` steps always suffice since the argument halves. -/
def log2Go : Nat → Nat → Nat
  | 0, _ => 0
  | fuel + 1, n => if 2 ≤ n then log2Go fuel (n / 2) + 1 else 0

/-- `⌊log₂ n⌋` for `n ≥ 1` (and 0 for `n = 0`). -/
def natLog2 (n : Nat) : Nat := log2Go n n

/-- Scale a fraction by `2 ^ k`. -/
def Frac.mulPow2 (a : Frac) (k : ℤ) : Frac :=
  if 0 ≤ k then ⟨a.num * 2 ^ k.toNat, a.den⟩
  else ⟨a.num, a.den * 2 ^ (-k).toNat⟩

/-- Floor of a fraction with nonnegative numerator. -/
def Frac.floorNonneg (a : Frac) : ℤ := a.num / (a.den : ℤ)

/-- Nearest integer to a fraction with nonnegative numerator and
positive denominator, ties to even. -/
def nearestEven (a : Frac) : ℤ :=
  let n := a.floorNonneg
  let r := a.num - n * a.den
  if 2 * r < (a.den : ℤ) then n
  else if (a.den : ℤ) < 2 * r then n + 1
  else if n % 2 = 0 then n else n + 1

/-- `⌊log₂ (a.num / a.den)⌋` for a fraction with positive numerator and
denominator: from the bit lengths the floor is
`⌊log₂ num⌋ - ⌊log₂ den⌋` or one less. -/
def Frac.log2Floor (a : Frac) : ℤ :=
  let c : ℤ := (natLog2 a.num.toNat : ℤ) - (natLog2 a.den : ℤ)
  let ge2c : Bool :=
    if 0 ≤ c then decide ((a.den : ℤ) * 2 ^ c.toNat ≤ a.num)
    else decide ((a.den : ℤ) ≤ a.num * 2 ^ (-c).toNat)
  if ge2c then c else c - 1

/-- Round a fraction to the nearest IEEE binary64 value (ties to even):
scale the absolute value into `[2^52, 2^53)`, round the 53-bit
significand, and scale back. -/
def roundDouble (q : Frac) : Frac :=
  if q.num = 0 then ⟨0, 1⟩
  else
    let aq := q.abs
    let e : ℤ := aq.log2Floor - 52
    let m : ℤ := nearestEven (aq.mulPow2 (-e))
    let r : Frac := if 0 ≤ e then ⟨m * 2 ^ e.toNat, 1⟩ else ⟨m, 2 ^ (-e).toNat⟩
    if q.num < 0 then ⟨-r.num, r.den⟩ else r

/-- `difference = abs(float(numbers[0]) - float(numbers[1]))` as CPython
computes it (app.py lines 301-303): each value is the nearest double of
its decimal literal, the subtraction is itself correctly rounded, and
the absolute value is exact. -/
def floatAbsDiff (a e : Frac) : Frac :=
  (roundDouble ((roundDouble a).sub (roundDouble e))).abs

/-- Exact value of an extracted decimal literal as a fraction over
`10 ^ fractionDigits`; its `toRat` is `numVal`. -/
def numFrac (n : List Char × List Char) : Frac :=
  ⟨((digitsToNat n.1 * 10 ^ n.2.length + digitsToNat n.2 : ℕ) : ℤ),
    10 ^ n.2.length⟩

/-- First two extracted numbers of a message, as the values of
`(float(numbers[0]), float(numbers[1]))` before conversion
(app.py lines 300-302). -/
def firstTwoNumbers (m : List Char) : Option (Frac × Frac) :=
  match findNumbers m with
  | n1 :: n2 :: _ => some (numFrac n1, numFrac n2)
  | _ => none

/-- Tolerance of the minor-rounding branch: the double denoted by the
source literal `0.02` (app.py lines 306, 328). -/
def minorTol : Frac := roundDouble ⟨2, 100⟩

/-- Tolerance of the potential-rounding fallback: the double denoted by
the source literal `0.05` (app.py line 356). -/
def potentialTol : Frac := roundDouble ⟨5, 100⟩

/-- One message's contribution to a rounding flag: it mentions
"line total", at least two decimal numbers were extracted, and the
double difference of the first two, as CPython computes it, is within
`tol` (app.py lines 296-309, 319-331, 346-357). -/
def msgWithinTol (tol : Frac) (m : List Char) : Bool :=
  mentionsLineTotal m &&
    match firstTwoNumbers m with
    | some (a, e) => (floatAbsDiff a e).le tol
    | none => false

/-- Cross-multiplication equality test, for validating concrete model
values against externally computed (gcd-reduced) fractions. -/
def Frac.eqv (a b : Frac) : Bool :=
  decide (a.num * (b.den : ℤ) = b.num * (a.den : ℤ))

theorem Frac.le_iff_toRat (a b : Frac) (ha : 0 < a.den) (hb : 0 < b.den) :
    a.le b = true ↔ a.toRat ≤ b.toRat := by
  have ha' : (0 : ℚ) < (a.den : ℚ) := by exact_mod_cast ha
  have hb' : (0 : ℚ) < (b.den : ℚ) := by exact_mod_cast hb
  simp only [Frac.le, decide_eq_true_eq, Frac.toRat]
  rw [div_le_div_iff₀ ha' hb']
  constructor
  · intro h
    exact_mod_cast h
  · intro h
    exact_mod_cast h

theorem roundDouble_den_pos (q : Frac) : 0 < (roundDouble q).den := by
  by_cases h0 : q.num = 0
  · simp [roundDouble, h0]
  · by_cases he : (0 : ℤ) ≤ Frac.log2Floor q.abs - 52 <;>
      by_cases hs : q.num < 0 <;>
        simp [roundDouble, h0, he, hs]

theorem floatAbsDiff_den_pos (a e : Frac) : 0 < (floatAbsDiff a e).den := by
  simp only [floatAbsDiff, Frac.abs]
  exact roundDouble_den_pos _

/-- The exact decimal reading of an extracted number agrees with the
fraction the float model starts from. -/
theorem numFrac_toRat (n : List Char × List Char) :
    (numFrac n).toRat = numVal n := by
  simp only [numFrac, Frac.toRat, numVal]
  have h10 : ((10 : ℚ) ^ n.2.length) ≠ 0 := by positivity
  push_cast
  field_simp

/-- The float model agrees with CPython on every literal and difference
the C1 theorems touch: `float('1.03')` is 4638707616191611/2^52,
`float('1.01')` is 4548635623644201/2^52, `float('0.02')` is
5764607523034235/2^58, `float('0.05')` is 3602879701896397/2^56,
`abs(float('1.03') - float('1.01'))` is 45035996273705/2^51 =
0.020000000000000018 — above `0.02`, below `0.05` — and
`abs(float('100.00') - float('100.01'))` is 703687441777/2^46, below
`0.02`. -/
theorem doubleModel_matches_cpython :
    (roundDouble ⟨103, 100⟩).eqv ⟨4638707616191611, 4503599627370496⟩ = true
    ∧ (roundDouble ⟨101, 100⟩).eqv ⟨4548635623644201, 4503599627370496⟩ = true
    ∧ minorTol.eqv ⟨5764607523034235, 288230376151711744⟩ = true
    ∧ potentialTol.eqv ⟨3602879701896397, 72057594037927936⟩ = true
    ∧ (floatAbsDiff ⟨103, 100⟩ ⟨101, 100⟩).eqv
        ⟨45035996273705, 2251799813685248⟩ = true
    ∧ (floatAbsDiff ⟨103, 100⟩ ⟨101, 100⟩).le minorTol = false
    ∧ (floatAbsDiff ⟨103, 100⟩ ⟨101, 100⟩).le potentialTol = true
    ∧ (floatAbsDiff ⟨10000, 100⟩ ⟨10001, 100⟩).eqv
        ⟨703687441777, 70368744177664⟩ = true
    ∧ (floatAbsDiff ⟨10000, 100⟩ ⟨10001, 100⟩).le minorTol = true := by
  decide

/-! ### Validation error classifier (app.py lines 283-371) -/

/-- One entry of the `Elements` list of an error body: it may or may not
carry a `ValidationErrors` key, whose entries' `Message` fields are the
messages. -/
structure ErrorElement where
  validationErrors : Option (List (List Char))
deriving DecidableEq

/-- A decoded void-failure response body: optional top-level
`ValidationErrors` messages and optional `Elements` list. -/
structure ErrorResponse where
  validationErrors : Option (List (List Char))
  elements : Option (List ErrorElement)
deriving DecidableEq

/-- Messages of the top-level `ValidationErrors` list (empty when the key
is absent). -/
def topMessages (r : ErrorResponse) : List (List Char) :=
  r.validationErrors.getD []

/-- All messages reachable through `Elements[i].ValidationErrors`. -/
def elementMessages (r : ErrorResponse) : List (List Char) :=
  ((r.elements.getD []).map (fun e => e.validationErrors.getD [])).flatten

/-- `has_validation_errors` (app.py lines 286-315): set when the
top-level `ValidationErrors` key is present, or when `Elements` is
present, non-empty, and some element carries a `ValidationErrors` key. -/
def hasValidationErrors (r : ErrorResponse) : Bool :=
  r.validationErrors.isSome ||
    match r.elements with
    | some es => decide (es.length > 0) && es.any (fun e => e.validationErrors.isSome)
    | none => false

/-- `has_minor_rounding_error` (app.py lines 287-331): some message, in
either shape, mentions "line total", yields at least two numbers, and the
first two differ by at most 0.02. -/
def hasMinorRounding (r : ErrorResponse) : Bool :=
  (topMessages r).any (msgWithinTol minorTol) ||
    (elementMessages r).any (msgWithinTol minorTol)

/-- `is_potential_rounding_error` (app.py lines 340-357): the fallback
scan over `Elements` messages only, with tolerance 0.05. -/
def isPotentialRounding (r : ErrorResponse) : Bool :=
  match r.elements with
  | some es =>
      decide (es.length > 0) &&
        (elementMessages r).any (msgWithinTol potentialTol)
  | none => false

/-- Outcome classes of the error-response analysis, named after the four
distinct guidance branches of app.py lines 334-367.  `retriableRounding`
is the spec's `RetriableValidationError` tagged "rounding"; the other
three are flavours of `FatalValidationError` (the invoice stays unvoided
and the operator is told to intervene manually). -/
inductive ClassifierOutcome
  | retriableRounding
  | fatalPotentialRounding
  | fatalValidation
  | fatalNoValidationInfo
deriving DecidableEq

/-- Is the class a fatal (non-retriable) one? -/
def ClassifierOutcome.isFatalClass : ClassifierOutcome → Bool
  | .retriableRounding => false
  | _ => true

/-- The classifier decision structure of app.py lines 334-367. -/
def classify (r : ErrorResponse) : ClassifierOutcome :=
  if hasValidationErrors r then
    if hasMinorRounding r then .retriableRounding
    else if isPotentialRounding r then .fatalPotentialRounding
    else .fatalValidation
  else .fatalNoValidationInfo

/-! ### Invoice void transaction (app.py lines 187-383) -/

/-- Key under which `void_invoice` reads both the resolve response
(app.py line 212) and the inspect response (line 229): hardcoded
`'Invoices'` whatever the configured `VOID_TYPE`. -/
def invoicesKey : String := "Invoices"

/-- The other configurable collection name. -/
def creditNotesKey : String := "CreditNotes"

/-- Status string compared against at the inspect step (line 233). -/
def voidedStatus : String := "VOIDED"

/-- Default used by `invoice.get('Status', 'UNKNOWN')` (line 230). -/
def unknownStatus : String := "UNKNOWN"

/-- One remote document as read from a wire body: the fields the code
touches, each optional because the code does dict lookups
(`['InvoiceID']` at line 217, `.get('Status', ...)` at line 230). -/
structure RemoteInvoice where
  invoiceID : Option String
  status : Option String
deriving DecidableEq

/-- A decoded GET body: the single `{ "<Collection>": [ ... ] }` mapping
of the wire contract, as an association list. -/
structure WireBody where
  collections : List (String × List RemoteInvoice)
deriving DecidableEq

/-- `data.get(key)`. -/
def WireBody.get (b : WireBody) (k : String) : Option (List RemoteInvoice) :=
  b.collections.lookup k

/-- Result of one HTTP call: a transport exception
(`requests.exceptions.RequestException`), or a status code with a body
whose JSON decoding (`.json()`) may itself fail (`none` models a raised
`json.JSONDecodeError`). -/
inductive CallResult (β : Type)
  | exn : CallResult β
  | res (status : Nat) (body : Option β) : CallResult β
deriving DecidableEq

/-- The remote behaviour one identifier meets: a response per potential
call of the transaction (resolve GET, inspect GET, void POST). -/
structure RemoteEnv where
  listRes : CallResult WireBody
  fullRes : CallResult WireBody
  voidRes : CallResult ErrorResponse

/-- The three remote calls the transaction can issue, in order. -/
inductive CallStep
  | list
  | inspect
  | mutate
deriving DecidableEq

/-- Per-identifier outcome, following the early-return / print branches
of `void_invoice`. -/
inductive VoidOutcome
  | voided
  | alreadyVoided
  | notFound
  | listFetchFailed
  | inspectFetchFailed
  | voidFailed (c : ClassifierOutcome)
  | voidFailedUnparsed
  | networkError
  | jsonDecodeError
  | unexpectedError
deriving DecidableEq

/-- Shallow embedding of `void_invoice` (app.py lines 187-383) for one
identifier, over the remote environment, parameterised by the configured
`VOID_TYPE` (which the code uses only to build URLs).  Returns the
outcome together with the list of remote calls issued. -/
def void_invoice (VOID_TYPE : String) (env : RemoteEnv) :
    VoidOutcome × List CallStep :=
  match env.listRes with
  | .exn => (.networkError, [.list])
  | .res st body =>
    if st ≠ 200 then (.listFetchFailed, [.list])
    else
      match body with
      | none => (.jsonDecodeError, [.list])
      | some data =>
        match data.get invoicesKey with
        | none => (.notFound, [.list])
        | some [] => (.notFound, [.list])
        | some (inv0 :: _) =>
          match inv0.invoiceID with
          | none => (.unexpectedError, [.list])
          | some _ =>
            match env.fullRes with
            | .exn => (.networkError, [.list, .inspect])
            | .res st2 body2 =>
              if st2 ≠ 200 then (.inspectFetchFailed, [.list, .inspect])
              else
                match body2 with
                | none => (.jsonDecodeError, [.list, .inspect])
                | some data2 =>
                  match data2.get invoicesKey with
                  | none => (.unexpectedError, [.list, .inspect])
                  | some [] => (.unexpectedError, [.list, .inspect])
                  | some (invoice :: _) =>
                    if invoice.status.getD unknownStatus = voidedStatus then
                      (.alreadyVoided, [.list, .inspect])
                    else
                      match env.voidRes with
                      | .exn => (.networkError, [.list, .inspect, .mutate])
                      | .res st3 body3 =>
                        if st3 = 200 ∨ st3 = 204 then
                          (.voided, [.list, .inspect, .mutate])
                        else
                          match body3 with
                          | none =>
                              (.voidFailedUnparsed, [.list, .inspect, .mutate])
                          | some errResp =>
                              (.voidFailed (classify errResp),
                                [.list, .inspect, .mutate])

/-! ### Batch scheduler (app.py lines 150-184) and throttle decision
(lines 410-419) -/

/-- The run-wide environment: the remote behaviour each identifier meets,
plus the clock.  `elapsed idx` is the value of
`time.time() - start_time` sampled at the 1-based loop iteration `idx`
(app.py line 170). -/
structure RunEnv where
  remote : String → RemoteEnv
  elapsed : Nat → ℚ

/-- What the progress line shows for ETA: `"Calculating..."` before any
item has completed, else the computed seconds (app.py lines 171-177). -/
inductive EtaDisplay
  | calculating
  | eta (seconds : ℚ)
deriving DecidableEq

/-- One iteration of the scheduler loop as observable data: the enforced
sleep (if any), the ETA shown, the identifier, its outcome and remote
calls, the `processed + 1` index displayed, and the value of `processed`
after the iteration. -/
structure ProgressLine where
  sleptSeconds : Option ℚ
  etaShown : EtaDisplay
  ident : String
  outcome : VoidOutcome
  calls : List CallStep
  shownIndex : Nat
  processedAfter : Nat
deriving DecidableEq

/-- The scheduler loop body (app.py lines 164-180), recursing over the
iteration order of the identifier collection with the 1-based `idx` and
the `processed` counter as accumulators. -/
def runLoop (VOID_TYPE : String) (env : RunEnv) (all_at_once : Bool)
    (total : Nat) : List String → Nat → Nat → List ProgressLine
  | [], _, _ => []
  | id :: rest, idx, processed =>
    let elapsed_time := env.elapsed idx
    let etaShown :=
      if processed > 0 then
        EtaDisplay.eta
          (((total - processed : Nat) : ℚ) * (elapsed_time / (processed : ℚ)))
      else EtaDisplay.calculating
    let r := void_invoice VOID_TYPE (env.remote id)
    { sleptSeconds := if all_at_once then none else some (3 / 2),
      etaShown := etaShown,
      ident := id,
      outcome := r.1,
      calls := r.2,
      shownIndex := processed + 1,
      processedAfter := processed + 1 } ::
      runLoop VOID_TYPE env all_at_once total rest (idx + 1) (processed + 1)

/-- `process_void_job` (app.py lines 150-184): an empty collection is a
no-op; otherwise run the loop from `idx = 1`, `processed = 0`. -/
def process_void_job (VOID_TYPE : String) (env : RunEnv)
    (invoice_ids : List String) (all_at_once : Bool) : List ProgressLine :=
  if invoice_ids.length = 0 then []
  else runLoop VOID_TYPE env all_at_once invoice_ids.length invoice_ids 1 0

/-- `main`'s throttle decision (app.py lines 414-419): more than 60
deduplicated identifiers → `all_at_once = False` (throttled), otherwise
`all_at_once = True`. -/
def mainAllAtOnce (all_invoice_ids : List String) : Bool :=
  !decide (all_invoice_ids.length > 60)

/-- The non-dry-run branch of `main` (app.py lines 413-419), taking the
deduplicated identifier collection in its iteration order. -/
def main_run (VOID_TYPE : String) (env : RunEnv)
    (all_invoice_ids : List String) : List ProgressLine :=
  process_void_job VOID_TYPE env all_invoice_ids (mainAllAtOnce all_invoice_ids)

/-! ### Helper lemmas about the scheduler loop -/

theorem runLoop_map_ident (vt : String) (env : RunEnv) (a : Bool)
    (total : Nat) :
    ∀ (ids : List String) (idx processed : Nat),
      (runLoop vt env a total ids idx processed).map (fun l => l.ident) = ids := by
  intro ids
  induction ids with
  | nil => intro idx processed; simp [runLoop]
  | cons id rest ih =>
      intro idx processed
      simp only [runLoop, List.map_cons]
      rw [ih]

theorem runLoop_length (vt : String) (env : RunEnv) (a : Bool)
    (total : Nat) (ids : List String) (idx processed : Nat) :
    (runLoop vt env a total ids idx processed).length = ids.length := by
  have h := runLoop_map_ident vt env a total ids idx processed
  calc (runLoop vt env a total ids idx processed).length
      = ((runLoop vt env a total ids idx processed).map
          (fun l => l.ident)).length := (List.length_map _ _).symm
    _ = ids.length := by rw [h]

theorem runLoop_mem (vt : String) (env : RunEnv) (a : Bool) (total : Nat) :
    ∀ (ids : List String) (idx processed : Nat) (line : ProgressLine),
      line ∈ runLoop vt env a total ids idx processed →
        line.ident ∈ ids
        ∧ line.outcome = (void_invoice vt (env.remote line.ident)).1
        ∧ line.calls = (void_invoice vt (env.remote line.ident)).2
        ∧ line.sleptSeconds = (if a then none else some (3 / 2)) := by
  intro ids
  induction ids with
  | nil => intro idx processed line hline; simp [runLoop] at hline
  | cons id rest ih =>
      intro idx processed line hline
      simp only [runLoop, List.mem_cons] at hline
      rcases hline with h | h
      · subst h
        refine ⟨List.mem_cons_self _ _, rfl, rfl, rfl⟩
      · obtain ⟨h1, h2, h3, h4⟩ := ih (idx + 1) (processed + 1) line h
        exact ⟨List.mem_cons_of_mem _ h1, h2, h3, h4⟩

theorem runLoop_get_processedAfter (vt : String) (env : RunEnv) (a : Bool)
    (total : Nat) :
    ∀ (ids : List String) (idx processed k : Nat)
      (hk : k < (runLoop vt env a total ids idx processed).length),
      ((runLoop vt env a total ids idx processed).get ⟨k, hk⟩).processedAfter
        = processed + k + 1 := by
  intro ids
  induction ids with
  | nil => intro idx processed k hk; simp [runLoop] at hk
  | cons id rest ih =>
      intro idx processed k hk
      cases k with
      | zero => simp [runLoop]
      | succ k' =>
          have hk' : k' < (runLoop vt env a total rest (idx + 1)
              (processed + 1)).length := by
            simp only [runLoop, List.length_cons] at hk
            omega
          have hrec := ih (idx + 1) (processed + 1) k' hk'
          simp only [runLoop, List.get_cons_succ]
          rw [hrec]
          omega

theorem runLoop_get_eta (vt : String) (env : RunEnv) (a : Bool)
    (total : Nat) :
    ∀ (ids : List String) (idx processed k : Nat)
      (hk : k < (runLoop vt env a total ids idx processed).length),
      ((runLoop vt env a total ids idx processed).get ⟨k, hk⟩).etaShown
        = if processed + k > 0 then
            EtaDisplay.eta (((total - (processed + k) : Nat) : ℚ)
              * (env.elapsed (idx + k) / ((processed + k : Nat) : ℚ)))
          else EtaDisplay.calculating := by
  intro ids
  induction ids with
  | nil => intro idx processed k hk; simp [runLoop] at hk
  | cons id rest ih =>
      intro idx processed k hk
      cases k with
      | zero => simp [runLoop]
      | succ k' =>
          have hk' : k' < (runLoop vt env a total rest (idx + 1)
              (processed + 1)).length := by
            simp only [runLoop, List.length_cons] at hk
            omega
          have hrec := ih (idx + 1) (processed + 1) k' hk'
          simp only [runLoop, List.get_cons_succ]
          rw [hrec]
          have e1 : processed + 1 + k' = processed + (k' + 1) := by omega
          have e2 : idx + 1 + k' = idx + (k' + 1) := by omega
          rw [e1, e2]

theorem process_void_job_eq (vt : String) (env : RunEnv)
    (ids : List String) (a : Bool) :
    process_void_job vt env ids a
      = runLoop vt env a ids.length ids 1 0 := by
  cases ids with
  | nil => simp [process_void_job, runLoop]
  | cons id rest => simp [process_void_job]

/-! ### Concrete fixtures used by witnesses and counterexamples -/

/-- Status string of a live document. -/
def authorisedStatus : String := "AUTHORISED"

/-- A sample resolved document identifier. -/
def invIdA : String := "0e64a623-c2a1-446a-93ed-eb897f118cbc"

/-- Sample invoice numbers. -/
def invNum1 : String := "INV-1"

def invNum2 : String := "INV-2"

/-- A document whose remote status is already `VOIDED`. -/
def voidedInvoice : RemoteInvoice :=
  { invoiceID := some invIdA, status := some voidedStatus }

/-- A live document. -/
def activeInvoice : RemoteInvoice :=
  { invoiceID := some invIdA, status := some authorisedStatus }

/-- Wire body resolving to the voided document. -/
def bodyVoided : WireBody := { collections := [(invoicesKey, [voidedInvoice])] }

/-- Wire body resolving to the live document. -/
def bodyActive : WireBody := { collections := [(invoicesKey, [activeInvoice])] }

/-- Wire body with an empty `Invoices` list. -/
def bodyEmpty : WireBody := { collections := [(invoicesKey, [])] }

/-- An error body with no validation information. -/
def emptyErrorResp : ErrorResponse := { validationErrors := none, elements := none }

/-- Environment for an identifier whose document is already voided. -/
def envAlreadyVoided : RemoteEnv :=
  { listRes := .res 200 (some bodyVoided),
    fullRes := .res 200 (some bodyVoided),
    voidRes := .res 400 (some emptyErrorResp) }

/-- Environment for an identifier that resolves to no document. -/
def envNotFound : RemoteEnv :=
  { listRes := .res 200 (some bodyEmpty),
    fullRes := .res 200 (some bodyEmpty),
    voidRes := .res 400 (some emptyErrorResp) }

/-- Environment for a live identifier whose void call succeeds. -/
def envVoidOk : RemoteEnv :=
  { listRes := .res 200 (some bodyActive),
    fullRes := .res 200 (some bodyActive),
    voidRes := .res 200 (some emptyErrorResp) }

/-- A run environment where every identifier voids cleanly and the clock
reads `idx` seconds at iteration `idx`. -/
def runEnvOk : RunEnv :=
  { remote := fun _ => envVoidOk, elapsed := fun idx => (idx : ℚ) }

/-! ### C2 — already-voided documents short-circuit before the mutate
call -/

/-- C2: for every identifier whose resolved remote resource has status
`VOIDED` at the inspect step, the transaction returns `AlreadyVoided`
and issues no mutate call (app.py lines 229-235). -/
theorem C2_already_voided_no_mutate (vt : String) (env : RemoteEnv)
    (data data2 : WireBody) (inv0 invoice : RemoteInvoice) (invId : String)
    (rest rest2 : List RemoteInvoice)
    (h1 : env.listRes = CallResult.res 200 (some data))
    (h2 : data.get invoicesKey = some (inv0 :: rest))
    (h3 : inv0.invoiceID = some invId)
    (h4 : env.fullRes = CallResult.res 200 (some data2))
    (h5 : data2.get invoicesKey = some (invoice :: rest2))
    (h6 : invoice.status.getD unknownStatus = voidedStatus) :
    void_invoice vt env = (.alreadyVoided, [.list, .inspect])
    ∧ CallStep.mutate ∉ (void_invoice vt env).2 := by
  have hv : void_invoice vt env = (.alreadyVoided, [.list, .inspect]) := by
    simp [void_invoice, h1, h2, h3, h4, h5, h6]
  refine ⟨hv, ?_⟩
  rw [hv]
  simp

/-- Witness for C2 on a concrete environment. -/
theorem C2_witness :
    void_invoice invoicesKey envAlreadyVoided = (.alreadyVoided, [.list, .inspect])
    ∧ CallStep.mutate ∉ (void_invoice invoicesKey envAlreadyVoided).2 :=
  C2_already_voided_no_mutate invoicesKey envAlreadyVoided bodyVoided bodyVoided
    voidedInvoice voidedInvoice invIdA [] [] (by rfl) (by decide) (by decide)
    (by rfl) (by decide) (by decide)

/-! ### C3 — unresolved identifiers yield NotFound before any further
call -/

/-- C3: for every identifier whose resolve query returns zero matches
(`data.get('Invoices')` absent or empty, app.py lines 211-215), the
transaction returns `NotFound` after the single resolve call, so no
mutate call is attempted. -/
theorem C3_not_found_no_mutate (vt : String) (env : RemoteEnv)
    (data : WireBody)
    (h1 : env.listRes = CallResult.res 200 (some data))
    (h2 : data.get invoicesKey = none ∨ data.get invoicesKey = some []) :
    void_invoice vt env = (.notFound, [.list])
    ∧ CallStep.mutate ∉ (void_invoice vt env).2 := by
  have hv : void_invoice vt env = (.notFound, [.list]) := by
    rcases h2 with h2 | h2 <;> simp [void_invoice, h1, h2]
  refine ⟨hv, ?_⟩
  rw [hv]
  simp

/-- Witness for C3 on a concrete environment. -/
theorem C3_witness :
    void_invoice invoicesKey envNotFound = (.notFound, [.list])
    ∧ CallStep.mutate ∉ (void_invoice invoicesKey envNotFound).2 :=
  C3_not_found_no_mutate invoicesKey envNotFound bodyEmpty (by rfl)
    (Or.inr (by decide))

/-! ### C1 — line-total rounding tolerance of the classifier -/

/-- An error body carrying one message in the top-level
`ValidationErrors` shape. -/
def topShape (m : List Char) : ErrorResponse :=
  { validationErrors := some [m], elements := none }

/-- An error body carrying one message in the nested
`Elements[0].ValidationErrors` shape. -/
def elementsShape (m : List Char) : ErrorResponse :=
  { validationErrors := none,
    elements := some [{ validationErrors := some [m] }] }

theorem msgWithinTol_of_numbers (tol : Frac) (m : List Char)
    (n1 n2 : List Char × List Char) (ns : List (List Char × List Char))
    (hline : mentionsLineTotal m = true)
    (hnums : findNumbers m = n1 :: n2 :: ns) :
    msgWithinTol tol m = (floatAbsDiff (numFrac n1) (numFrac n2)).le tol := by
  have hft : firstTwoNumbers m = some (numFrac n1, numFrac n2) := by
    simp [firstTwoNumbers, hnums]
  simp [msgWithinTol, hline, hft]

/-- The boundary message refuting C1 as stated: the exact difference of
the two decimal literals is exactly 0.02. -/
def msgDiff002 : List Char :=
  "Invoice line total 1.03 does not match expected 1.01".toList

/-- Digits of 1.03 as extracted by the scanner. -/
def n103 : List Char × List Char := ("1".toList, "03".toList)

/-- Digits of 1.01. -/
def n101 : List Char × List Char := ("1".toList, "01".toList)

/-- Counterexample to C1 as stated: for the message
"... line total 1.03 ... expected 1.01" the exact difference of the
first two decimals is 0.02, within the claim's tolerance, yet the
program computes `abs(float("1.03") - float("1.01"))`, the double
0.020000000000000018, finds it above the double `0.02`, and classifies
the message as fatal in both shapes — so "retriable iff
`|actual - expected| <= 0.02`" is false of the code. -/
theorem C1_counterexample :
    mentionsLineTotal msgDiff002 = true
    ∧ findNumbers msgDiff002 = [n103, n101]
    ∧ |numVal n103 - numVal n101| ≤ 2 / 100
    ∧ classify (topShape msgDiff002) ≠ .retriableRounding
    ∧ classify (elementsShape msgDiff002) ≠ .retriableRounding
    ∧ classify (topShape msgDiff002) = .fatalValidation
    ∧ classify (elementsShape msgDiff002) = .fatalPotentialRounding := by
  refine ⟨by decide, by decide, ?_, by decide, by decide, by decide, by decide⟩
  have h1 : digitsToNat (String.toList "1") = 1 := by decide
  have h03 : digitsToNat (String.toList "03") = 3 := by decide
  have h01 : digitsToNat (String.toList "01") = 1 := by decide
  have hl3 : (String.toList "03").length = 2 := by decide
  have hl1 : (String.toList "01").length = 2 := by decide
  have e103 : numVal n103 = (digitsToNat (String.toList "1") : ℚ)
      + (digitsToNat (String.toList "03") : ℚ)
        / (10 : ℚ) ^ (String.toList "03").length := rfl
  have e101 : numVal n101 = (digitsToNat (String.toList "1") : ℚ)
      + (digitsToNat (String.toList "01") : ℚ)
        / (10 : ℚ) ^ (String.toList "01").length := rfl
  rw [h1, h03, hl3] at e103
  rw [h1, h01, hl1] at e101
  rw [e103, e101]
  push_cast
  rw [abs_sub_le_iff]
  constructor <;> norm_num

/-- C1 as amended: for a validation error message that mentions
"line total" (case-insensitively) and from which at least two decimal
numbers are extracted, the classifier takes the first two numbers as
`(actual, expected)` and yields `RetriableValidationError` tagged
"rounding" exactly when the IEEE-double difference
`abs(float(actual) - float(expected))` it computes is at most the
double denoted by the literal `0.02`, and a fatal classification
otherwise — in both the top-level `ValidationErrors` shape and the
nested `Elements[0].ValidationErrors` shape
(app.py lines 290-331, 340-364). -/
theorem C1_float_rounding_tolerance (m : List Char)
    (n1 n2 : List Char × List Char) (ns : List (List Char × List Char))
    (hline : mentionsLineTotal m = true)
    (hnums : findNumbers m = n1 :: n2 :: ns) :
    (classify (topShape m) = .retriableRounding
      ↔ (floatAbsDiff (numFrac n1) (numFrac n2)).toRat ≤ minorTol.toRat)
    ∧ (classify (elementsShape m) = .retriableRounding
      ↔ (floatAbsDiff (numFrac n1) (numFrac n2)).toRat ≤ minorTol.toRat)
    ∧ (¬ (floatAbsDiff (numFrac n1) (numFrac n2)).toRat ≤ minorTol.toRat →
        (classify (topShape m)).isFatalClass = true
        ∧ (classify (elementsShape m)).isFatalClass = true) := by
  have hmt := msgWithinTol_of_numbers minorTol m n1 n2 ns hline hnums
  have hpt := msgWithinTol_of_numbers potentialTol m n1 n2 ns hline hnums
  have hleM : (floatAbsDiff (numFrac n1) (numFrac n2)).le minorTol = true
      ↔ (floatAbsDiff (numFrac n1) (numFrac n2)).toRat ≤ minorTol.toRat :=
    Frac.le_iff_toRat _ _ (floatAbsDiff_den_pos _ _) (by decide)
  have hleP : (floatAbsDiff (numFrac n1) (numFrac n2)).le potentialTol = true
      ↔ (floatAbsDiff (numFrac n1) (numFrac n2)).toRat ≤ potentialTol.toRat :=
    Frac.le_iff_toRat _ _ (floatAbsDiff_den_pos _ _) (by decide)
  by_cases hd : (floatAbsDiff (numFrac n1) (numFrac n2)).toRat ≤ minorTol.toRat
  · have hb : (floatAbsDiff (numFrac n1) (numFrac n2)).le minorTol = true :=
      hleM.mpr hd
    have hmt1 : msgWithinTol minorTol m = true := by rw [hmt, hb]
    have h1 : classify (topShape m) = .retriableRounding := by
      simp [classify, hasValidationErrors, topShape, hasMinorRounding,
        topMessages, elementMessages, hmt1]
    have h2 : classify (elementsShape m) = .retriableRounding := by
      simp [classify, hasValidationErrors, elementsShape, hasMinorRounding,
        topMessages, elementMessages, hmt1]
    exact ⟨by simp [h1, hd], by simp [h2, hd], fun hc => absurd hd hc⟩
  · have hb : (floatAbsDiff (numFrac n1) (numFrac n2)).le minorTol = false := by
      cases hEq : (floatAbsDiff (numFrac n1) (numFrac n2)).le minorTol
      · rfl
      · exact absurd (hleM.mp hEq) hd
    have hmt1 : msgWithinTol minorTol m = false := by rw [hmt, hb]
    have h1 : classify (topShape m) = .fatalValidation := by
      simp [classify, hasValidationErrors, topShape, hasMinorRounding,
        isPotentialRounding, topMessages, elementMessages, hmt1]
    have h2 : (classify (elementsShape m)).isFatalClass = true := by
      by_cases hp : (floatAbsDiff (numFrac n1) (numFrac n2)).toRat
          ≤ potentialTol.toRat
      · have hbp : (floatAbsDiff (numFrac n1) (numFrac n2)).le potentialTol
            = true := hleP.mpr hp
        have hpt1 : msgWithinTol potentialTol m = true := by rw [hpt, hbp]
        have hcl : classify (elementsShape m) = .fatalPotentialRounding := by
          simp [classify, hasValidationErrors, elementsShape,
            hasMinorRounding, isPotentialRounding, topMessages,
            elementMessages, hmt1, hpt1]
        simp [hcl, ClassifierOutcome.isFatalClass]
      · have hbp : (floatAbsDiff (numFrac n1) (numFrac n2)).le potentialTol
            = false := by
          cases hEq : (floatAbsDiff (numFrac n1) (numFrac n2)).le potentialTol
          · rfl
          · exact absurd (hleP.mp hEq) hp
        have hpt1 : msgWithinTol potentialTol m = false := by rw [hpt, hbp]
        have hcl : classify (elementsShape m) = .fatalValidation := by
          simp [classify, hasValidationErrors, elementsShape,
            hasMinorRounding, isPotentialRounding, topMessages,
            elementMessages, hmt1, hpt1]
        simp [hcl, ClassifierOutcome.isFatalClass]
    have h2ne : classify (elementsShape m) ≠ .retriableRounding := by
      intro hcontra
      rw [hcontra] at h2
      simp [ClassifierOutcome.isFatalClass] at h2
    refine ⟨by simp [h1, hd], by simp [h2ne, hd], fun _ => ?_⟩
    exact ⟨by simp [h1, ClassifierOutcome.isFatalClass], h2⟩

/-- The spec's own examples: a line-total message with difference 0.01. -/
def msgDiff001 : List Char :=
  "Invoice line total 100.00 does not match expected 100.01".toList

/-- A line-total message with difference 0.10. -/
def msgDiff010 : List Char :=
  "Invoice line total 100.00 does not match expected 100.10".toList

/-- Digits of 100.00 as extracted by the scanner. -/
def n10000 : List Char × List Char := ("100".toList, "00".toList)

/-- Digits of 100.01. -/
def n10001 : List Char × List Char := ("100".toList, "01".toList)

/-- Digits of 100.10. -/
def n10010 : List Char × List Char := ("100".toList, "10".toList)

/-- Witness for the amended C1: the 0.01-difference message lands below
the double tolerance, so it is retriable in both shapes, and the
0.10-difference message lands above it, so it is fatal in both shapes —
the spec's own two examples are unaffected by double rounding. -/
theorem C1_float_witness :
    mentionsLineTotal msgDiff001 = true
    ∧ findNumbers msgDiff001 = [n10000, n10001]
    ∧ (classify (topShape msgDiff001) = .retriableRounding
        ↔ (floatAbsDiff (numFrac n10000) (numFrac n10001)).toRat
            ≤ minorTol.toRat)
    ∧ (classify (elementsShape msgDiff001) = .retriableRounding
        ↔ (floatAbsDiff (numFrac n10000) (numFrac n10001)).toRat
            ≤ minorTol.toRat)
    ∧ (floatAbsDiff (numFrac n10000) (numFrac n10001)).toRat ≤ minorTol.toRat
    ∧ mentionsLineTotal msgDiff010 = true
    ∧ findNumbers msgDiff010 = [n10000, n10010]
    ∧ ¬ (floatAbsDiff (numFrac n10000) (numFrac n10010)).toRat
        ≤ minorTol.toRat
    ∧ (¬ (floatAbsDiff (numFrac n10000) (numFrac n10010)).toRat
          ≤ minorTol.toRat →
        (classify (topShape msgDiff010)).isFatalClass = true
        ∧ (classify (elementsShape msgDiff010)).isFatalClass = true) :=
  ⟨by decide, by decide,
    (C1_float_rounding_tolerance msgDiff001 n10000 n10001 [] (by decide)
      (by decide)).1,
    (C1_float_rounding_tolerance msgDiff001 n10000 n10001 [] (by decide)
      (by decide)).2.1,
    (Frac.le_iff_toRat _ _ (floatAbsDiff_den_pos _ _) (by decide)).mp
      (by decide),
    by decide, by decide,
    (by
      intro hcontra
      have hb := (Frac.le_iff_toRat _ _ (floatAbsDiff_den_pos _ _)
        (by decide)).mpr hcontra
      have hfalse : (floatAbsDiff (numFrac n10000) (numFrac n10010)).le
          minorTol = false := by decide
      rw [hfalse] at hb
      exact Bool.false_ne_true hb),
    (C1_float_rounding_tolerance msgDiff010 n10000 n10010 [] (by decide)
      (by decide)).2.2⟩

/-! ### C4 — per-item failures never abort the batch -/

/-- C4: `void_invoice` is a total function of the remote environment (all
failure modes — transport exceptions, JSON decode failures, non-2xx
statuses — land in a classified `VoidOutcome`, app.py lines 372-383), and
for every environment, identifier list and throttle flag the scheduler
produces exactly one completed outcome per identifier, in order,
regardless of how many items fail (app.py lines 164-180). -/
theorem C4_failures_never_abort (vt : String) (env : RunEnv)
    (ids : List String) (a : Bool) :
    ((process_void_job vt env ids a).map (fun l => l.ident)) = ids
    ∧ (process_void_job vt env ids a).length = ids.length
    ∧ ∀ line ∈ process_void_job vt env ids a,
        line.outcome = (void_invoice vt (env.remote line.ident)).1 := by
  rw [process_void_job_eq]
  refine ⟨runLoop_map_ident vt env a ids.length ids 1 0,
    runLoop_length vt env a ids.length ids 1 0, ?_⟩
  intro line hline
  exact (runLoop_mem vt env a ids.length ids 1 0 line hline).2.1

/-! ### C5 — throttle policy -/

/-- C5: `main` throttles exactly when the deduplicated identifier set has
more than 60 elements (app.py lines 414-419); a throttled run sleeps 1.5
seconds before every remote-mutating transaction, and an unthrottled run
inserts no delay (app.py lines 165-168). -/
theorem C5_throttle_policy (vt : String) (env : RunEnv)
    (all_invoice_ids : List String) :
    (mainAllAtOnce all_invoice_ids = false ↔ all_invoice_ids.length > 60)
    ∧ (∀ line ∈ process_void_job vt env all_invoice_ids false,
        line.sleptSeconds = some (3 / 2))
    ∧ (∀ line ∈ process_void_job vt env all_invoice_ids true,
        line.sleptSeconds = none)
    ∧ (∀ line ∈ main_run vt env all_invoice_ids,
        line.sleptSeconds =
          if all_invoice_ids.length > 60 then some (3 / 2) else none) := by
  refine ⟨by simp [mainAllAtOnce], ?_, ?_, ?_⟩
  · intro line hline
    rw [process_void_job_eq] at hline
    simpa using
      (runLoop_mem vt env false all_invoice_ids.length all_invoice_ids 1 0
        line hline).2.2.2
  · intro line hline
    rw [process_void_job_eq] at hline
    simpa using
      (runLoop_mem vt env true all_invoice_ids.length all_invoice_ids 1 0
        line hline).2.2.2
  · intro line hline
    unfold main_run at hline
    rw [process_void_job_eq] at hline
    have h := (runLoop_mem vt env (mainAllAtOnce all_invoice_ids)
      all_invoice_ids.length all_invoice_ids 1 0 line hline).2.2.2
    by_cases hlen : all_invoice_ids.length > 60
    · have hm : mainAllAtOnce all_invoice_ids = false := by
        simp [mainAllAtOnce, hlen]
      rw [hm] at h
      simpa [hlen] using h
    · have hm : mainAllAtOnce all_invoice_ids = true := by
        simp [mainAllAtOnce, hlen]
      rw [hm] at h
      simpa [hlen] using h

/-! ### C6 — progress counter invariants -/

theorem runLoop_map_processedAfter (vt : String) (env : RunEnv) (a : Bool)
    (total : Nat) :
    ∀ (ids : List String) (idx processed : Nat),
      (runLoop vt env a total ids idx processed).map
          (fun l => l.processedAfter)
        = List.range' (processed + 1) ids.length := by
  intro ids
  induction ids with
  | nil => intro idx processed; simp [runLoop]
  | cons id rest ih =>
      intro idx processed
      simp only [runLoop, List.map_cons, List.length_cons,
        List.range'_succ]
      rw [ih]

/-- C6: over a non-empty identifier list the `processed` counter starts
at 0, the trace of its values after each completed transaction is exactly
`[1, 2, ..., total]` (so it increases by exactly 1 per transaction, never
exceeds `total`, and equals `total` at completion), and the report holds
exactly one outcome per distinct identifier (app.py lines 154-184). -/
theorem C6_progress_invariants (vt : String) (env : RunEnv)
    (ids : List String) (a : Bool) (hne : ids ≠ []) (hnd : ids.Nodup) :
    ((process_void_job vt env ids a).map (fun l => l.ident)) = ids
    ∧ ((process_void_job vt env ids a).map (fun l => l.processedAfter))
        = List.range' 1 ids.length
    ∧ (∀ line ∈ process_void_job vt env ids a,
        line.processedAfter ≤ ids.length)
    ∧ (((process_void_job vt env ids a).map (fun l => l.processedAfter)).getLast?
        = some ids.length)
    ∧ (∀ s ∈ ids,
        ((process_void_job vt env ids a).map (fun l => l.ident)).count s
          = 1) := by
  have hid : ((process_void_job vt env ids a).map (fun l => l.ident)) = ids := by
    rw [process_void_job_eq]
    exact runLoop_map_ident vt env a ids.length ids 1 0
  have hpa : ((process_void_job vt env ids a).map (fun l => l.processedAfter))
      = List.range' 1 ids.length := by
    rw [process_void_job_eq]
    exact runLoop_map_processedAfter vt env a ids.length ids 1 0
  refine ⟨hid, hpa, ?_, ?_, ?_⟩
  · intro line hline
    have hm : line.processedAfter
        ∈ ((process_void_job vt env ids a).map (fun l => l.processedAfter)) :=
      List.mem_map_of_mem _ hline
    rw [hpa] at hm
    have := List.mem_range'_1.mp hm
    omega
  · rw [hpa, List.getLast?_range']
    have hlen : ids.length ≠ 0 := by
      intro h
      exact hne (List.eq_nil_of_length_eq_zero h)
    simp [hlen]
  · intro s hs
    rw [hid]
    exact List.count_eq_one_of_mem hnd hs

/-- Concrete identifier list for scheduler witnesses. -/
def idsW : List String := [invNum1, invNum2]

/-- Witness for C6 on a concrete two-identifier run. -/
theorem C6_witness :
    idsW ≠ [] ∧ idsW.Nodup
    ∧ (((process_void_job invoicesKey runEnvOk idsW true).map
          (fun l => l.ident)) = idsW
      ∧ ((process_void_job invoicesKey runEnvOk idsW true).map
          (fun l => l.processedAfter)) = List.range' 1 idsW.length
      ∧ (∀ line ∈ process_void_job invoicesKey runEnvOk idsW true,
          line.processedAfter ≤ idsW.length)
      ∧ (((process_void_job invoicesKey runEnvOk idsW true).map
          (fun l => l.processedAfter)).getLast? = some idsW.length)
      ∧ (∀ s ∈ idsW,
          ((process_void_job invoicesKey runEnvOk idsW true).map
            (fun l => l.ident)).count s = 1)) :=
  ⟨by decide, by decide,
    C6_progress_invariants invoicesKey runEnvOk idsW true (by decide)
      (by decide)⟩

/-! ### C7 — ETA reporting -/

/-- C7: before any item has completed, the reported ETA is the
"Calculating..." placeholder, not a number; after `k + 1` completed items
the line shown with the next item reports
`remaining * (elapsed / processed)` seconds, with `processed = k + 1` and
`remaining = total - (k + 1)` (app.py lines 169-177). -/
theorem C7_eta_formula (vt : String) (env : RunEnv) (ids : List String)
    (a : Bool) :
    (∀ h0 : 0 < (process_void_job vt env ids a).length,
        ((process_void_job vt env ids a).get ⟨0, h0⟩).etaShown
          = EtaDisplay.calculating)
    ∧ ∀ (k : Nat) (hk : k + 1 < (process_void_job vt env ids a).length),
        ((process_void_job vt env ids a).get ⟨k + 1, hk⟩).etaShown
          = EtaDisplay.eta (((ids.length - (k + 1) : Nat) : ℚ)
              * (env.elapsed (k + 2) / ((k + 1 : Nat) : ℚ))) := by
  constructor
  · rw [process_void_job_eq]
    intro h0
    rw [runLoop_get_eta vt env a ids.length ids 1 0 0 h0]
    simp
  · intro k
    rw [process_void_job_eq]
    intro hk
    rw [runLoop_get_eta vt env a ids.length ids 1 0 (k + 1) hk]
    have e2 : 1 + (k + 1) = k + 2 := by omega
    simp [e2]

/-- Witness for C7 on a concrete two-identifier run: the first line shows
the placeholder and the second the extrapolated ETA. -/
theorem C7_witness :
    (0 : Nat) < (process_void_job invoicesKey runEnvOk idsW true).length
    ∧ (∀ h0 : 0 < (process_void_job invoicesKey runEnvOk idsW true).length,
        ((process_void_job invoicesKey runEnvOk idsW true).get
          ⟨0, h0⟩).etaShown = EtaDisplay.calculating)
    ∧ ((process_void_job invoicesKey runEnvOk idsW true).get
          ⟨1, by decide⟩).etaShown
        = EtaDisplay.eta (((idsW.length - 1 : Nat) : ℚ)
            * (runEnvOk.elapsed 2 / ((1 : Nat) : ℚ))) :=
  ⟨by decide,
    (C7_eta_formula invoicesKey runEnvOk idsW true).1,
    (C7_eta_formula invoicesKey runEnvOk idsW true).2 0 (by decide)⟩

/-! ### C9 — processing order -/

/-- One iteration order of the identifier set. -/
def orderA : List String := [invNum1, invNum2]

/-- The opposite iteration order of the same set. -/
def orderB : List String := [invNum2, invNum1]

/-- C9 evidence: the scheduler processes identifiers in exactly the
iteration order the `set` hands it — it applies no sorting or other
canonicalisation — so two iteration orders of the same two-element set
(which Python's hash-seeded `set` can both produce across runs or
platforms) yield two different processing orders. -/
theorem C9_order_not_canonical (vt : String) (env : RunEnv) :
    ((process_void_job vt env orderA true).map (fun l => l.ident) = orderA)
    ∧ ((process_void_job vt env orderB true).map (fun l => l.ident) = orderB)
    ∧ orderA ≠ orderB
    ∧ (∀ s : String, s ∈ orderA ↔ s ∈ orderB) := by
  refine ⟨?_, ?_, by decide, ?_⟩
  · rw [process_void_job_eq]
    exact runLoop_map_ident vt env true orderA.length orderA 1 0
  · rw [process_void_job_eq]
    exact runLoop_map_ident vt env true orderB.length orderB 1 0
  · intro s
    constructor <;> intro h <;> simp only [orderA, orderB,
      List.mem_cons, List.mem_singleton] at h ⊢ <;> tauto

/-! ### C10 — hardcoded `'Invoices'` key versus the CreditNotes target -/

theorem wireBody_get_creditnotes (invs : List RemoteInvoice) :
    WireBody.get { collections := [(creditNotesKey, invs)] } invoicesKey
      = none := by
  have hne : (invoicesKey == creditNotesKey) = false := by decide
  simp only [WireBody.get, List.lookup, hne]

/-- C10: `void_invoice` ignores the configured target type when reading
response bodies — it always reads the hardcoded `'Invoices'` key (app.py
lines 212, 229) — so in a `CreditNotes` run, whose wire bodies are keyed
`'CreditNotes'`, every identifier falls into the not-found branch and no
mutate call is ever issued. -/
theorem C10_creditnotes_never_mutated (env : RunEnv) (ids : List String)
    (invs : String → List RemoteInvoice)
    (hb : ∀ id ∈ ids, (env.remote id).listRes
        = CallResult.res 200
            (some { collections := [(creditNotesKey, invs id)] })) :
    (∀ vt : String, void_invoice vt = void_invoice invoicesKey)
    ∧ ∀ line ∈ process_void_job creditNotesKey env ids true,
        line.outcome = .notFound ∧ line.calls = [.list] := by
  refine ⟨fun vt => rfl, ?_⟩
  intro line hline
  rw [process_void_job_eq] at hline
  obtain ⟨hmem, hout, hcalls, _⟩ :=
    runLoop_mem creditNotesKey env true ids.length ids 1 0 line hline
  have hres := hb line.ident hmem
  have hv : void_invoice creditNotesKey (env.remote line.ident)
      = (.notFound, [.list]) := by
    simp [void_invoice, hres, wireBody_get_creditnotes]
  rw [hout, hcalls, hv]
  exact ⟨rfl, rfl⟩

/-- A list of credit-note documents as a CreditNotes-keyed wire body
would carry them. -/
def cnDocs : List RemoteInvoice := [activeInvoice]

/-- Environment of a CreditNotes run: the resolve response is keyed
`'CreditNotes'`. -/
def envCreditNotes : RemoteEnv :=
  { listRes := .res 200 (some { collections := [(creditNotesKey, cnDocs)] }),
    fullRes := .res 200 (some { collections := [(creditNotesKey, cnDocs)] }),
    voidRes := .res 200 (some emptyErrorResp) }

/-- Run environment for the CreditNotes witness. -/
def runEnvCreditNotes : RunEnv :=
  { remote := fun _ => envCreditNotes, elapsed := fun idx => (idx : ℚ) }

/-- Witness for C10 on a concrete CreditNotes run. -/
theorem C10_witness :
    (∀ vt : String, void_invoice vt = void_invoice invoicesKey)
    ∧ ∀ line ∈ process_void_job creditNotesKey runEnvCreditNotes idsW true,
        line.outcome = .notFound ∧ line.calls = [.list] :=
  C10_creditnotes_never_mutated runEnvCreditNotes idsW (fun _ => cnDocs)
    (by intro id hid; rfl)

/-! ### C8 — "not of valid status for modification" error responses -/

/-- Xero's rejection message for a document that can no longer be
modified. -/
def notValidStatusMsg : List Char :=
  "Invoice not of valid status for modification".toList

/-- Error body carrying only the not-valid-status message. -/
def notValidStatusResp : ErrorResponse :=
  { validationErrors := some [notValidStatusMsg], elements := none }

/-- A remote status spelling that means voided but differs from the
exact `'VOIDED'` string the inspect check compares against. -/
def mixedCaseVoided : String := "Voided"

/-- Document reported as voided in a spelling the inspect check misses. -/
def mixedVoidedInvoice : RemoteInvoice :=
  { invoiceID := some invIdA, status := some mixedCaseVoided }

/-- Resolve/inspect body for that document. -/
def bodyMixedVoided : WireBody :=
  { collections := [(invoicesKey, [mixedVoidedInvoice])] }

/-- Environment where the last-known status from the inspect step is a
voided status (spelled `Voided`), and the subsequent mutate call is
rejected with the not-valid-status message. -/
def envNotValidStatus : RemoteEnv :=
  { listRes := .res 200 (some bodyMixedVoided),
    fullRes := .res 200 (some bodyMixedVoided),
    voidRes := .res 400 (some notValidStatusResp) }

/-- Counterexample to C8: the error-response analysis of `void_invoice`
has no already-voided rule at all — on a concrete run whose inspect step
read a voided status (`Voided`) and whose mutate call was rejected with
the "not of valid status for modification" message, the classifier
yields the non-rounding fatal class and the transaction's outcome is a
failure, not `AlreadyVoided`. -/
theorem C8_counterexample :
    classify notValidStatusResp = .fatalValidation
    ∧ (void_invoice invoicesKey envNotValidStatus).1
        = .voidFailed .fatalValidation
    ∧ (void_invoice invoicesKey envNotValidStatus).1
        ≠ .alreadyVoided := by decide

theorem any_msgWithinTol_eq_false (tol : Frac) (ms : List (List Char))
    (h : ∀ m ∈ ms, mentionsLineTotal m = false) :
    ms.any (msgWithinTol tol) = false := by
  rw [List.any_eq_false]
  intro m hm
  simp [msgWithinTol, h m hm]

/-- C8 as amended: the classifier never consults the last-known status
and never yields an already-voided result; any error response that has
validation errors but whose messages never mention "line total" — the
not-valid-status message among them — is classified as the non-rounding
fatal class.  (`AlreadyVoided` arises only in the inspect step, when the
status string is exactly `VOIDED`, in which case no mutate call and hence
no error response occurs.) -/
theorem C8_amended_fatal_regardless_of_status (r : ErrorResponse)
    (hve : hasValidationErrors r = true)
    (hml : ∀ m ∈ topMessages r, mentionsLineTotal m = false)
    (hme : ∀ m ∈ elementMessages r, mentionsLineTotal m = false) :
    classify r = .fatalValidation ∧ classify r ≠ .retriableRounding := by
  have h1 : hasMinorRounding r = false := by
    simp only [hasMinorRounding, Bool.or_eq_false_iff]
    exact ⟨any_msgWithinTol_eq_false minorTol (topMessages r) hml,
      any_msgWithinTol_eq_false minorTol (elementMessages r) hme⟩
  have h2 : isPotentialRounding r = false := by
    have hany := any_msgWithinTol_eq_false potentialTol (elementMessages r) hme
    unfold isPotentialRounding
    cases hel : r.elements with
    | none => rfl
    | some es => simp [hany]
  have h3 : classify r = .fatalValidation := by
    simp [classify, hve, h1, h2]
  exact ⟨h3, by simp [h3]⟩

/-- Witness for the amended C8 at the concrete not-valid-status
response. -/
theorem C8_amended_witness :
    hasValidationErrors notValidStatusResp = true
    ∧ (classify notValidStatusResp = .fatalValidation
        ∧ classify notValidStatusResp ≠ .retriableRounding) :=
  ⟨by decide,
    C8_amended_fatal_regardless_of_status notValidStatusResp (by decide)
      (by decide) (by decide)⟩

/-! ### Remaining concrete witnesses -/

/-- Witness for C4 on a concrete run. -/
theorem C4_witness :
    ((process_void_job invoicesKey runEnvOk idsW true).map
        (fun l => l.ident)) = idsW
    ∧ (process_void_job invoicesKey runEnvOk idsW true).length = idsW.length
    ∧ ∀ line ∈ process_void_job invoicesKey runEnvOk idsW true,
        line.outcome = (void_invoice invoicesKey (runEnvOk.remote line.ident)).1 :=
  C4_failures_never_abort invoicesKey runEnvOk idsW true

/-- Witness for C5 on a concrete run. -/
theorem C5_witness :
    (mainAllAtOnce idsW = false ↔ idsW.length > 60)
    ∧ (∀ line ∈ process_void_job invoicesKey runEnvOk idsW false,
        line.sleptSeconds = some (3 / 2))
    ∧ (∀ line ∈ process_void_job invoicesKey runEnvOk idsW true,
        line.sleptSeconds = none)
    ∧ (∀ line ∈ main_run invoicesKey runEnvOk idsW,
        line.sleptSeconds =
          if idsW.length > 60 then some (3 / 2) else none) :=
  C5_throttle_policy invoicesKey runEnvOk idsW

/-- Witness for C9 on a concrete environment. -/
theorem C9_witness :
    ((process_void_job invoicesKey runEnvOk orderA true).map
        (fun l => l.ident) = orderA)
    ∧ ((process_void_job invoicesKey runEnvOk orderB true).map
        (fun l => l.ident) = orderB)
    ∧ orderA ≠ orderB
    ∧ (∀ s : String, s ∈ orderA ↔ s ∈ orderB) :=
  C9_order_not_canonical invoicesKey runEnvOk

end XeroVoid
